import Mathlib

/-
Formal model of the YouTrack REST client (`src/youtrack/client.py`).

The client is a thin wrapper: every public method assembles a URL and an
optional JSON payload from its arguments, issues one HTTP request, and funnels
the response through `_handle_response`.  This file gives a shallow embedding
of that translation layer:

* `Json` models decoded Python/JSON values (dicts as association lists in
  insertion order, which is how `json.loads` and dict literals behave);
* `pyTruthy`, `dictGet`, `dictSet`, `pyDictMerge`, `pyRepr`, `pyStr` model the
  Python primitives the source leans on (`if x:`, `d.get(k)`, `d[k] = v`,
  `{**a, **b}` merging, `str(x)`);
* the response normalization, the per-method payload/URL builders, the
  configuration loader, the client-side aggregations, and a heap model for the
  one place where aliasing matters (`create_issue`'s `custom_fields.copy()`)
  are each translated from the corresponding lines of the source.
-/

namespace YouTrack

/-- Decoded JSON / Python values.  Objects are association lists in insertion
order with pairwise-distinct keys (the shape `json.loads` and Python dict
literals produce).  Numbers are integers: the client only ever handles integer
fields (durations in minutes, story points). -/
inductive Json where
  | null
  | bool (b : Bool)
  | num (n : Int)
  | str (s : String)
  | arr (elems : List Json)
  | obj (fields : List (String × Json))

/-- Python truthiness of a decoded value: `None`, `False`, `0`, `""`, `[]`
and `\x7b\x7d` are falsy, everything else is truthy. -/
def pyTruthy : Json → Bool
  | Json.null => false
  | Json.bool b => b
  | Json.num n => n != 0
  | Json.str s => s != ""
  | Json.arr xs => !xs.isEmpty
  | Json.obj kvs => !kvs.isEmpty

/-- Python `d.get(k)` on an association-list dict: the value at the key, or
`none` when the key is absent. -/
def dictGet (kvs : List (String × Json)) (k : String) : Option Json :=
  match kvs with
  | [] => none
  | (k2, v) :: rest => if k2 = k then some v else dictGet rest k

/-- Python `d[k] = v` on an association-list dict: an existing key keeps its
position and gets the new value, a new key is appended at the end. -/
def dictSet (kvs : List (String × Json)) (k : String) (v : Json) :
    List (String × Json) :=
  match kvs with
  | [] => [(k, v)]
  | (k2, v2) :: rest =>
      if k2 = k then (k, v) :: rest else (k2, v2) :: dictSet rest k v

/-- Python dict-literal merging `\x7b**d, **e\x7d`: start from `d` and write
each entry of `e` into it in order (so keys of `e` overwrite keys of `d`,
keeping the overwritten key's position). -/
def pyDictMerge (d e : List (String × Json)) : List (String × Json) :=
  e.foldl (fun acc kv => dictSet acc kv.1 kv.2) d

mutual

/-- Python `repr` of a decoded JSON value, as produced inside `str(dict)` /
`str(list)`: `None`/`True`/`False`, decimal integers, single-quoted strings,
`[a, b]` lists and `\x7b\x27k\x27: v\x7d` dicts.  Strings are modelled without
repr's escaping of special characters; the claims only evaluate it on plain
identifiers and words. -/
def pyRepr : Json → String
  | Json.null => "None"
  | Json.bool true => "True"
  | Json.bool false => "False"
  | Json.num n => toString n
  | Json.str s => "\x27" ++ s ++ "\x27"
  | Json.arr xs => "[" ++ pyReprElems xs ++ "]"
  | Json.obj kvs => "\x7b" ++ pyReprFields kvs ++ "\x7d"

/-- Comma-separated `repr`s of the elements of a Python list. -/
def pyReprElems : List Json → String
  | [] => ""
  | [x] => pyRepr x
  | x :: xs => pyRepr x ++ ", " ++ pyReprElems xs

/-- Comma-separated `\x27key\x27: repr(value)` entries of a Python dict. -/
def pyReprFields : List (String × Json) → String
  | [] => ""
  | [(k, v)] => "\x27" ++ k ++ "\x27: " ++ pyRepr v
  | (k, v) :: kvs => "\x27" ++ k ++ "\x27: " ++ pyRepr v ++ ", " ++ pyReprFields kvs

end

/-- Python `str(x)` as used by f-string interpolation: a string is inserted
verbatim, any other value through its `repr`. -/
def pyStr : Json → String
  | Json.str s => s
  | j => pyRepr j

/-- Python `a or b` on decoded values: `a` when truthy, else `b`. -/
def pyOrJson (a b : Json) : Json :=
  if pyTruthy a then a else b

/-- An HTTP response as `_handle_response` observes it: the numeric status
code, the result of `response.json()` (`none` when the body is not decodable
JSON, in which case `.json()` raises), and the raw `response.text`. -/
structure HttpResponse where
  status : Nat
  jsonBody : Option Json
  text : String

/-- Outcome of `_handle_response`: the decoded body is returned, or a
`YouTrackError` with the given message is raised, or (2xx/3xx status with an
undecodable body) the final `response.json()` raises a JSON decode error. -/
inductive HandleResult where
  | ok (body : Json)
  | apiError (message : String)
  | decodeFailure

/-- Message selection of `_handle_response`'s error branch
(client.py lines 62-66):
`error = response.json()` followed by
`error.get(\x27error_description\x27) or error.get(\x27message\x27) or str(error)`,
all inside one `try`.  When the body is not decodable JSON, or is JSON but not
an object (so that `.get` raises `AttributeError`), the `except` branch uses
`response.text` instead. -/
def errorMessage (r : HttpResponse) : String :=
  match r.jsonBody with
  | some (Json.obj kvs) =>
      pyStr (pyOrJson ((dictGet kvs "error_description").getD Json.null)
        (pyOrJson ((dictGet kvs "message").getD Json.null)
          (Json.str (pyRepr (Json.obj kvs)))))
  | some _ => r.text
  | none => r.text

/-- Embedding of `_handle_response` (client.py lines 58-68).
`response.raise_for_status()` raises `HTTPError` exactly for status codes
400-599; in that case a `YouTrackError` is raised whose message is the fixed
prefix followed by `errorMessage`.  Otherwise the decoded body is returned
(`response.json()`, which raises when the body is not decodable JSON). -/
def handle_response (r : HttpResponse) : HandleResult :=
  if 400 ≤ r.status ∧ r.status ≤ 599 then
    HandleResult.apiError ("YouTrack API error: " ++ errorMessage r)
  else
    match r.jsonBody with
    | some j => HandleResult.ok j
    | none => HandleResult.decodeFailure

/-- Whether an association-list dict carries the given key. -/
def hasKey (kvs : List (String × Json)) (k : String) : Bool :=
  kvs.any (fun kv => kv.1 == k)

/-- Value of the `Story points` convenience argument as `create_issue`
builds it (client.py line 96):
`\x7b"name": str(story_points), "value": story_points\x7d`. -/
def storyPointsEntry (sp : Int) : Json :=
  Json.obj [("name", Json.str (toString sp)), ("value", Json.num sp)]

/-- One element of the outgoing `customFields` list (client.py lines 98-101):
`\x7b"name": k, **(v if isinstance(v, dict) else \x7b"value": v\x7d)\x7d`.
When the value is a dict its entries are merged over `"name": k`, so a
`"name"` key inside the value overwrites the field name. -/
def customFieldEntry (k : String) (v : Json) : Json :=
  match v with
  | Json.obj kvs => Json.obj (pyDictMerge [("name", Json.str k)] kvs)
  | _ => Json.obj [("name", Json.str k), ("value", v)]

/-- Effective custom-fields dict of `create_issue` (client.py lines 94-96):
`custom_fields = custom_fields.copy() if custom_fields else \x7b\x7d` (an
absent or empty argument yields a fresh empty dict), then
`custom_fields["Story points"] = ...` when `story_points` is supplied. -/
def effectiveCustomFields (custom_fields : Option (List (String × Json)))
    (story_points : Option Int) : List (String × Json) :=
  let cf := match custom_fields with
    | some d => if d.isEmpty then [] else d
    | none => []
  match story_points with
  | some sp => dictSet cf "Story points" (storyPointsEntry sp)
  | none => cf

/-- Outgoing JSON payload of `create_issue` (client.py lines 88-101).
The `data` dict always carries `project`, `summary` and `description` (the
`description` parameter defaults to `""`, modelled by `Option.getD`); the
`customFields` key is added only when the effective custom-fields dict is
non-empty (`if custom_fields:`). -/
def create_issue_payload (project_id summary : String) (description : Option String)
    (custom_fields : Option (List (String × Json))) (story_points : Option Int) :
    List (String × Json) :=
  let data : List (String × Json) :=
    [("project", Json.obj [("id", Json.str project_id)]),
     ("summary", Json.str summary),
     ("description", Json.str (description.getD ""))]
  let cf := effectiveCustomFields custom_fields story_points
  if cf.isEmpty then data
  else data ++ [("customFields", Json.arr (cf.map (fun kv => customFieldEntry kv.1 kv.2)))]

/-- Outgoing JSON payload of `update_issue` (client.py lines 140-146).
`data` starts empty; `summary` and `description` are added exactly when the
argument is not `None`; `customFields` is added when the argument is truthy
(`if custom_fields:`), i.e. supplied and non-empty, and then carries the
caller's dict unchanged. -/
def update_issue_payload (summary description : Option String)
    (custom_fields : Option (List (String × Json))) : List (String × Json) :=
  let data : List (String × Json) := []
  let data := match summary with
    | some s => data ++ [("summary", Json.str s)]
    | none => data
  let data := match description with
    | some d => data ++ [("description", Json.str d)]
    | none => data
  match custom_fields with
  | some cf => if cf.isEmpty then data else data ++ [("customFields", Json.obj cf)]
  | none => data

/-- Server-side filter query of `list_issues` (client.py line 120): the URL
embeds `query=project:\x7bproject_id\x7d \x7bquery\x7d`, i.e. the project
clause and the caller's free-text query joined by one unconditional space. -/
def list_issues_query (project_id query : String) : String :=
  "project:" ++ project_id ++ " " ++ query

/-- The client's long-lived state (client.py lines 36-38): the bearer token
and the endpoint root, both set once by `__init__`. -/
structure YouTrackClient where
  token : String
  base_url : String

/-- Decoded TOML values, as `toml.load` produces them for the configuration
file: strings, integers, booleans and tables. -/
inductive Toml where
  | str (s : String)
  | int (n : Int)
  | bool (b : Bool)
  | table (kvs : List (String × Toml))

/-- Lookup in the entry list of a TOML table. -/
def tomlTableGet : List (String × Toml) → String → Option Toml
  | [], _ => none
  | (k2, v) :: rest, k => if k2 = k then some v else tomlTableGet rest k

/-- Python `config[k]` on a decoded TOML value: the entry of a table at the
key; indexing a missing key (`KeyError`) or a non-table (`TypeError`) fails. -/
def tomlGet (t : Toml) (k : String) : Option Toml :=
  match t with
  | Toml.table kvs => tomlTableGet kvs k
  | _ => none

/-- Failure modes of client construction from configuration, all raised before
any HTTP request exists: `toml.load` fails on a missing or malformed file, and
indexing fails when the `youtrack` table or either required key is absent. -/
inductive ConfigError where
  | loadFailed
  | missingValue

/-- Embedding of `from_config` (client.py lines 40-49).  The argument is the
result of `toml.load` on the resolved path: `none` when the file is missing or
malformed (the load raises), `some config` otherwise.  The loader extracts
`config["youtrack"]["token"]` and `config["youtrack"]["base_url"]` and hands
the two values unchanged to `cls(token, base_url)`, which stores them as the
client's `token` and `base_url` fields; no HTTP request is built or sent on
any path through this function. -/
def from_config (loaded : Option Toml) : Except ConfigError (Toml × Toml) :=
  match loaded with
  | none => Except.error ConfigError.loadFailed
  | some config =>
      match tomlGet config "youtrack" with
      | none => Except.error ConfigError.missingValue
      | some yt =>
          match tomlGet yt "token" with
          | none => Except.error ConfigError.missingValue
          | some token =>
              match tomlGet yt "base_url" with
              | none => Except.error ConfigError.missingValue
              | some base_url => Except.ok (token, base_url)

/-- Duration contributed by one workitem in `calculate_time_spent`
(client.py line 261): `wi.get(\x27duration\x27, 0)` — the `duration` value
when present, else `0`.  A workitem that is not a dict (`.get` raises) or a
non-numeric duration (`sum` raises) yields no value; a boolean duration sums
as a Python `int` subclass. -/
def workitemDuration (wi : Json) : Option Int :=
  match wi with
  | Json.obj kvs =>
      match dictGet kvs "duration" with
      | none => some 0
      | some (Json.num n) => some n
      | some (Json.bool b) => some (if b then 1 else 0)
      | some _ => none
  | _ => none

/-- One step of the running sum in `calculate_time_spent`: add the workitem's
contribution, propagating failure. -/
def sumDurationsStep (acc : Option Int) (wi : Json) : Option Int :=
  match acc, workitemDuration wi with
  | some t, some d => some (t + d)
  | _, _ => none

/-- Embedding of the aggregation in `calculate_time_spent` (client.py
lines 260-262): `sum(wi.get(\x27duration\x27, 0) for wi in workitems)`, each
workitem contributing exactly once; `none` models the `sum` raising on an
ill-formed workitem. -/
def calculate_time_spent (workitems : List Json) : Option Int :=
  workitems.foldl sumDurationsStep (some 0)

/-- Modelled from the spec sentence "sum of each workitem's duration field,
treating a missing field as zero": the per-workitem contribution the claim
describes, to be compared with the source-side `workitemDuration`. -/
def duration_or_zero (wi : Json) : Int :=
  match wi with
  | Json.obj kvs =>
      match dictGet kvs "duration" with
      | some (Json.num n) => n
      | _ => 0
  | _ => 0

/-- Board predicate of `list_boards` (client.py line 375):
`any(p[\x27id\x27] == project_id for p in b.get(\x27projects\x27, []))`.
A board without a `projects` key iterates the default `[]`.  A projects entry
that is not a dict or lacks an `id` key would raise in the source
(`TypeError` / `KeyError`) where this total model returns `false`; the claim
theorem therefore carries a `WellFormedBoard` hypothesis restricting its board
lists to the server's shape, on which the model and the source agree. -/
def boardMatchesProject (project_id : String) (b : Json) : Bool :=
  match b with
  | Json.obj kvs =>
      match dictGet kvs "projects" with
      | some (Json.arr ps) =>
          ps.any (fun p =>
            match p with
            | Json.obj pkvs =>
                match dictGet pkvs "id" with
                | some (Json.str s) => s == project_id
                | _ => false
            | _ => false)
      | _ => false
  | _ => false

/-- Client-side post-filtering of `list_boards` (client.py lines 373-376):
the full server result is bound first, then `if project_id:` (truthy, so a
`None` or empty-string argument skips the filter) narrows it to the boards
whose `projects` list contains an entry with the matching id. -/
def list_boards (boards : List Json) (project_id : Option String) : List Json :=
  match project_id with
  | some pid => if pid = "" then boards else boards.filter (boardMatchesProject pid)
  | none => boards

/-- HTTP verbs the client uses. -/
inductive Verb where
  | get
  | post
  | put

/-- One outgoing HTTP request as a client method assembles it: verb, URL,
header list, optional JSON body, and (for `attach_file` only) the path of the
file sent as a multipart part. -/
structure HttpRequest where
  verb : Verb
  url : String
  headers : List (String × String)
  body : Option Json
  filePart : Option String

/-- Embedding of `_headers` (client.py lines 51-56). -/
def headersOf (c : YouTrackClient) : List (String × String) :=
  [("Authorization", "Bearer " ++ c.token),
   ("Accept", "application/json"),
   ("Content-Type", "application/json")]

/-- A GET request with the standard headers. -/
def getReq (c : YouTrackClient) (url : String) : HttpRequest :=
  ⟨Verb.get, url, headersOf c, none, none⟩

/-- A POST request with the standard headers and a JSON body. -/
def postJson (c : YouTrackClient) (url : String) (body : Json) : HttpRequest :=
  ⟨Verb.post, url, headersOf c, some body, none⟩

/-- A POST request with the standard headers and no body. -/
def postBare (c : YouTrackClient) (url : String) : HttpRequest :=
  ⟨Verb.post, url, headersOf c, none, none⟩

/-- A PUT request with the standard headers and no body. -/
def putReq (c : YouTrackClient) (url : String) : HttpRequest :=
  ⟨Verb.put, url, headersOf c, none, none⟩

/-- URL of `list_issues` (client.py line 120). -/
def list_issues_url (c : YouTrackClient) (project_id query : String)
    (limit skip : Int) : String :=
  c.base_url ++ "/api/issues?fields=id,summary,description&query=" ++
    list_issues_query project_id query ++
    "&$skip=" ++ toString skip ++ "&$top=" ++ toString limit

/-- URL of `list_boards` (client.py line 371); it is computed before the
client-side filter and does not depend on the `project_id` argument, so the
full board list is always requested. -/
def list_boards_url (c : YouTrackClient) : String :=
  c.base_url ++ "/api/agiles?fields=id,name,projects(id,name)"

/-- The request `list_boards` issues, as a function of the method's
`project_id` argument: the argument is never consulted (the only URL the
method builds is `list_boards_url`). -/
def list_boards_request (c : YouTrackClient) (_project_id : Option String) :
    HttpRequest :=
  getReq c (list_boards_url c)

/-- One public method invocation of `YouTrackClient`, with its arguments.
Parameters with a Python default are modelled by their effective value
(`limit`, `skip`, `fields`, `description` of `add_spent_time`) or by an
`Option` where the source distinguishes `None`/truthiness. -/
inductive Op where
  | create_issue (project_id summary : String) (description : Option String)
      (custom_fields : Option (List (String × Json))) (story_points : Option Int)
  | list_issues (project_id query : String) (limit skip : Int)
  | update_issue (issue_id : String) (summary description : Option String)
      (custom_fields : Option (List (String × Json)))
  | search_issues (query : String) (limit skip : Int)
  | add_comment (issue_id text : String)
  | transition_issue (issue_id field_name new_state : String)
  | attach_file (issue_id file_path : String)
  | get_issue_history (issue_id : String)
  | list_workitems (project_id : String) (limit skip : Int)
  | calculate_time_spent (issue_id : String)
  | list_workitem_types (project_id : String)
  | add_spent_time (issue_id : String) (duration : Int)
      (workitem_type_id description : String)
  | list_projects
  | get_issue (issue_id : String)
  | list_users (query : String) (limit skip : Int)
  | list_custom_fields (project_id : String)
  | list_workflows
  | list_boards (project_id : Option String)
  | list_sprints (board_id : String)
  | list_user_stories (board_id : String) (sprint_id : Option String)
  | add_issue_to_sprint (board_id sprint_id issue_id : String)
  | add_issue_to_user_story (board_id user_story_id issue_id : String)
  | add_user_story_to_sprint (board_id sprint_id user_story_id : String)
  | run_report (report_id : String)
  | authenticate
  | get_deadline_calendars
  | get_issue_links (issue_id : String)
  | list_issue_link_types
  | list_issue_link_types_for_issue (issue_id : String)
  | list_issue_link_types_for_project (project_id : String)
  | add_issue_link (source_issue_id target_issue_id link_type_id : String)
  | run_query (query fields : String) (limit skip : Int)
  | run_command (issue_id command : String) (comment : Option String)

/-- Request assembly of every public method, translated line by line from the
source, threading the client state explicitly.  Each method reads `self.token`
and `self.base_url` to build its URL and headers and contains no assignment to
either field, so every branch returns the client unchanged; `authenticate` is
a `pass` body issuing no request. -/
def runOp (c : YouTrackClient) : Op → Option HttpRequest × YouTrackClient
  | Op.create_issue project_id summary description custom_fields story_points =>
      (some (postJson c (c.base_url ++ "/api/issues?fields=id,summary,description")
        (Json.obj (create_issue_payload project_id summary description
          custom_fields story_points))), c)
  | Op.list_issues project_id query limit skip =>
      (some (getReq c (list_issues_url c project_id query limit skip)), c)
  | Op.update_issue issue_id summary description custom_fields =>
      (some (postJson c
        (c.base_url ++ "/api/issues/" ++ issue_id ++ "?fields=id,summary,description")
        (Json.obj (update_issue_payload summary description custom_fields))), c)
  | Op.search_issues query limit skip =>
      (some (getReq c (c.base_url ++ "/api/issues?fields=id,summary,description&query=" ++
        query ++ "&$skip=" ++ toString skip ++ "&$top=" ++ toString limit)), c)
  | Op.add_comment issue_id text =>
      (some (postJson c
        (c.base_url ++ "/api/issues/" ++ issue_id ++ "/comments?fields=id,text,author")
        (Json.obj [("text", Json.str text)])), c)
  | Op.transition_issue issue_id field_name new_state =>
      (some (postJson c
        (c.base_url ++ "/api/issues/" ++ issue_id ++ "/fields/" ++ field_name)
        (Json.obj [("name", Json.str field_name),
                   ("value", Json.obj [("name", Json.str new_state)])])), c)
  | Op.attach_file issue_id file_path =>
      (some ⟨Verb.post,
        c.base_url ++ "/api/issues/" ++ issue_id ++ "/attachments?fields=id,name",
        [("Authorization", "Bearer " ++ c.token)], none, some file_path⟩, c)
  | Op.get_issue_history issue_id =>
      (some (getReq c (c.base_url ++ "/api/issues/" ++ issue_id ++
        "/activities?fields=id,timestamp,author,added,removed")), c)
  | Op.list_workitems project_id limit skip =>
      (some (getReq c (c.base_url ++
        "/api/issues?fields=id,summary,workItems(id,duration,author,date,description)&query=project:" ++
        project_id ++ "&$skip=" ++ toString skip ++ "&$top=" ++ toString limit)), c)
  | Op.calculate_time_spent issue_id =>
      (some (getReq c (c.base_url ++ "/api/issues/" ++ issue_id ++
        "/timeTracking/workItems?fields=duration")), c)
  | Op.list_workitem_types project_id =>
      (some (getReq c (c.base_url ++ "/api/admin/projects/" ++ project_id ++
        "/timetrackingsettings/workitemtypes?fields=id,name,localizedName")), c)
  | Op.add_spent_time issue_id duration workitem_type_id description =>
      (some (postJson c (c.base_url ++ "/api/issues/" ++ issue_id ++
        "/timeTracking/workItems?fields=id,duration,description,type(id,name)")
        (Json.obj [("duration", Json.num duration),
                   ("description", Json.str description),
                   ("type", Json.obj [("id", Json.str workitem_type_id)])])), c)
  | Op.list_projects =>
      (some (getReq c (c.base_url ++ "/api/admin/projects?fields=id,name,shortName")), c)
  | Op.get_issue issue_id =>
      (some (getReq c (c.base_url ++ "/api/issues/" ++ issue_id ++
        "?fields=id,summary,description,project(id,name)")), c)
  | Op.list_users query limit skip =>
      (some (getReq c (c.base_url ++ "/api/users?fields=id,login,name,email&query=" ++
        query ++ "&$skip=" ++ toString skip ++ "&$top=" ++ toString limit)), c)
  | Op.list_custom_fields project_id =>
      (some (getReq c (c.base_url ++ "/api/admin/projects/" ++ project_id ++
        "/customfields?fields=id,name,fieldType(id,valueType)")), c)
  | Op.list_workflows =>
      (some (getReq c (c.base_url ++ "/api/workflows?fields=id,name,description")), c)
  | Op.list_boards project_id =>
      (some (list_boards_request c project_id), c)
  | Op.list_sprints board_id =>
      (some (getReq c (c.base_url ++ "/api/agiles/" ++ board_id ++
        "/sprints?fields=id,name,start,finish,isArchived")), c)
  | Op.list_user_stories board_id sprint_id =>
      (some (getReq c
        (let url := c.base_url ++ "/api/agiles/" ++ board_id ++
          "/issues?fields=id,summary,customFields(id,name,value(name))"
         match sprint_id with
         | some sid => if sid = "" then url else url ++ "&sprint=" ++ sid
         | none => url)), c)
  | Op.add_issue_to_sprint board_id sprint_id issue_id =>
      (some (putReq c (c.base_url ++ "/api/agiles/" ++ board_id ++ "/sprints/" ++
        sprint_id ++ "/issues/" ++ issue_id)), c)
  | Op.add_issue_to_user_story board_id user_story_id issue_id =>
      (some (putReq c (c.base_url ++ "/api/agiles/" ++ board_id ++ "/issues/" ++
        user_story_id ++ "/subtasks/" ++ issue_id)), c)
  | Op.add_user_story_to_sprint board_id sprint_id user_story_id =>
      (some (putReq c (c.base_url ++ "/api/agiles/" ++ board_id ++ "/sprints/" ++
        sprint_id ++ "/issues/" ++ user_story_id)), c)
  | Op.run_report report_id =>
      (some (postBare c (c.base_url ++ "/api/reports/" ++ report_id ++ "/execute")), c)
  | Op.authenticate => (none, c)
  | Op.get_deadline_calendars =>
      (some (getReq c (c.base_url ++ "/api/admin/calendars?fields=id,name,holidays")), c)
  | Op.get_issue_links issue_id =>
      (some (getReq c (c.base_url ++ "/api/issues/" ++ issue_id ++
        "/links?fields=id,direction,linkType(id,name,directed),issues(id,summary)")), c)
  | Op.list_issue_link_types =>
      (some (getReq c (c.base_url ++ "/api/issueLinkTypes?fields=id,name,directed")), c)
  | Op.list_issue_link_types_for_issue issue_id =>
      (some (getReq c (c.base_url ++ "/api/issues/" ++ issue_id ++
        "/links/types?fields=id,name,directed")), c)
  | Op.list_issue_link_types_for_project project_id =>
      (some (getReq c (c.base_url ++ "/api/admin/projects/" ++ project_id ++
        "/issueLinkTypes?fields=id,name,directed")), c)
  | Op.add_issue_link source_issue_id target_issue_id link_type_id =>
      (some (putReq c (c.base_url ++ "/api/issues/" ++ source_issue_id ++ "/links/" ++
        link_type_id ++ "/" ++ target_issue_id)), c)
  | Op.run_query query fields limit skip =>
      (some (getReq c (c.base_url ++ "/api/issues?fields=" ++ fields ++ "&query=" ++
        query ++ "&$skip=" ++ toString skip ++ "&$top=" ++ toString limit)), c)
  | Op.run_command issue_id command comment =>
      (some (postJson c (c.base_url ++ "/api/issues/" ++ issue_id ++ "/execute")
        (Json.obj
          (let data : List (String × Json) := [("query", Json.str command)]
           match comment with
           | some t =>
               if t = "" then data
               else data ++ [("comment", Json.obj [("text", Json.str t)])]
           | none => data))), c)

/-- A store of Python dict objects: addresses are indices, so distinct
addresses are distinct objects.  It models the aliasing that matters in
`create_issue`: whether the method writes into the caller's dict or into a
copy. -/
structure Heap where
  cells : List (List (String × Json))

/-- Allocate a fresh dict object holding the given entries; returns the new
heap and the fresh address. -/
def Heap.alloc (h : Heap) (d : List (String × Json)) : Heap × Nat :=
  (⟨h.cells ++ [d]⟩, h.cells.length)

/-- Read the dict object at an address. -/
def Heap.read (h : Heap) (a : Nat) : List (String × Json) :=
  (h.cells[a]?).getD []

/-- Overwrite the dict object at an address. -/
def Heap.write (h : Heap) (a : Nat) (d : List (String × Json)) : Heap :=
  ⟨h.cells.set a d⟩

/-- Custom-fields processing of `create_issue` on the dict store
(client.py lines 94-96): `custom_fields = custom_fields.copy() if
custom_fields else \x7b\x7d` rebinds the local name to a freshly allocated
object — a copy of the caller's dict when that is truthy, an empty dict when
the argument is `None` or empty — and the subsequent
`custom_fields["Story points"] = ...` writes into that fresh object.  Returns
the heap after the statement and the address the local name holds. -/
def create_issue_custom_fields_state (h : Heap) (caller : Option Nat)
    (story_points : Option Int) : Heap × Nat :=
  let allocated : Heap × Nat :=
    match caller with
    | some a => if (h.read a).isEmpty then h.alloc [] else h.alloc (h.read a)
    | none => h.alloc []
  let h1 := allocated.1
  let a1 := allocated.2
  match story_points with
  | some sp =>
      (h1.write a1 (dictSet (h1.read a1) "Story points" (storyPointsEntry sp)), a1)
  | none => (h1, a1)

/-- A workitem as the server returns it to `calculate_time_spent`: a JSON
object whose `duration` field, when present, is a number. -/
def WellFormedWorkitem (wi : Json) : Prop :=
  ∃ kvs, wi = Json.obj kvs ∧
    ∀ v, dictGet kvs "duration" = some v → ∃ n, v = Json.num n

/-- A board as the server returns it to `list_boards` (requested fields
`id,name,projects(id,name)`): a JSON object whose `projects` value, when
present, is an array of objects each carrying a string `id`.  Outside this
shape the source's filter predicate can raise (`p[\x27id\x27]` raises
`KeyError` on an entry without `id`, `TypeError` on a non-dict entry), paths
the total model `boardMatchesProject` does not represent. -/
def WellFormedBoard (b : Json) : Prop :=
  ∃ kvs, b = Json.obj kvs ∧
    ∀ v, dictGet kvs "projects" = some v →
      ∃ ps, v = Json.arr ps ∧
        ∀ p ∈ ps, ∃ pkvs, p = Json.obj pkvs ∧
          ∃ s, dictGet pkvs "id" = some (Json.str s)


/-- Claim C1, counterexample.  The claim reads the message off the decoded
body whenever the body decodes as JSON; but for a body that is valid JSON and
not an object — here the JSON string `"fail"`, raw text `"fail"` with quotes —
the source's `error.get(...)` raises `AttributeError` and the `except` branch
substitutes the raw `response.text`, not the stringified decoded body. -/
theorem c1_counterexample :
    handle_response ⟨400, some (Json.str "fail"), "\"fail\""⟩ =
      HandleResult.apiError ("YouTrack API error: " ++ "\"fail\"")
    ∧ ("YouTrack API error: " ++ "\"fail\"" : String) ≠
        "YouTrack API error: " ++ pyStr (Json.str "fail") :=
  ⟨rfl, by decide⟩

/-- Claim C1, amended: for every response with an HTTP error status (400-599),
`_handle_response` raises `YouTrackError`, and the message after the fixed
prefix is chosen as follows — if the body decodes as a JSON object, the first
truthy among its `error_description` field and its `message` field, else the
stringified object; if the body is non-object JSON or not decodable JSON, the
raw response text. -/
theorem c1_error_normalization (r : HttpResponse)
    (h4 : 400 ≤ r.status) (h5 : r.status ≤ 599) :
    handle_response r = HandleResult.apiError ("YouTrack API error: " ++ errorMessage r)
    ∧ (∀ kvs v, r.jsonBody = some (Json.obj kvs) →
        dictGet kvs "error_description" = some v → pyTruthy v = true →
        errorMessage r = pyStr v)
    ∧ (∀ kvs v, r.jsonBody = some (Json.obj kvs) →
        pyTruthy ((dictGet kvs "error_description").getD Json.null) = false →
        dictGet kvs "message" = some v → pyTruthy v = true →
        errorMessage r = pyStr v)
    ∧ (∀ kvs, r.jsonBody = some (Json.obj kvs) →
        pyTruthy ((dictGet kvs "error_description").getD Json.null) = false →
        pyTruthy ((dictGet kvs "message").getD Json.null) = false →
        errorMessage r = pyRepr (Json.obj kvs))
    ∧ (∀ j, r.jsonBody = some j → (∀ kvs, j ≠ Json.obj kvs) → errorMessage r = r.text)
    ∧ (r.jsonBody = none → errorMessage r = r.text) := by
  refine ⟨?_, ?_, ?_, ?_, ?_, ?_⟩
  · unfold handle_response
    rw [if_pos ⟨h4, h5⟩]
  · intro kvs v hb hd ht
    simp only [errorMessage, hb]
    rw [hd]
    simp [pyOrJson, ht]
  · intro kvs v hb hd1 hd2 ht
    simp only [errorMessage, hb]
    rw [hd2]
    simp [pyOrJson, hd1, ht]
  · intro kvs hb hd1 hd2
    simp only [errorMessage, hb]
    simp [pyOrJson, hd1, hd2, pyStr]
  · intro j hb hne
    simp only [errorMessage, hb]
  · intro hb
    unfold errorMessage
    rw [hb]

/-- Witness for `c1_error_normalization` at the spec's example: status 400
with body `\x7b"message": "fail"\x7d` raises the API error whose message
contains `fail` after the fixed prefix. -/
theorem c1_error_normalization_witness :
    handle_response ⟨400, some (Json.obj [("message", Json.str "fail")]), ""⟩ =
      HandleResult.apiError "YouTrack API error: fail" := by
  have h := c1_error_normalization
    ⟨400, some (Json.obj [("message", Json.str "fail")]), ""⟩ (by decide) (by decide)
  rw [h.1]
  exact congrArg HandleResult.apiError (by decide)

/-- Claim C2: every 2xx response with a JSON-decodable body is returned
decoded and unchanged by `_handle_response`, without raising. -/
theorem c2_success_identity (r : HttpResponse) (j : Json)
    (h2 : 200 ≤ r.status) (h3 : r.status ≤ 299) (hb : r.jsonBody = some j) :
    handle_response r = HandleResult.ok j := by
  unfold handle_response
  rw [if_neg (by omega), hb]

/-- Witness for `c2_success_identity` at the spec's example: status 200 with
body `\x7b"ok": true\x7d` returns exactly that decoded body. -/
theorem c2_success_identity_witness :
    handle_response ⟨200, some (Json.obj [("ok", Json.bool true)]), "x"⟩ =
      HandleResult.ok (Json.obj [("ok", Json.bool true)]) :=
  c2_success_identity _ _ (by decide) (by decide) rfl

/-- Helper: the `create_issue` payload always starts with the fixed
`project`, `summary`, `description` entries; a possible `customFields` entry
only follows them. -/
theorem create_issue_payload_destruct (project_id summary : String)
    (description : Option String) (custom_fields : Option (List (String × Json)))
    (story_points : Option Int) :
    ∃ tail, create_issue_payload project_id summary description custom_fields story_points =
      ("project", Json.obj [("id", Json.str project_id)]) ::
      ("summary", Json.str summary) ::
      ("description", Json.str (description.getD "")) :: tail := by
  unfold create_issue_payload
  dsimp only
  split
  · exact ⟨[], rfl⟩
  · exact ⟨_, rfl⟩

/-- Claim C3, counterexample.  `create_issue` with the `description` argument
omitted still sends the `description` key, bound to the empty string: the
source builds `data` with `"description": description` unconditionally and the
parameter defaults to `""`, so an omitted description is sent, not left out. -/
theorem c3_counterexample :
    hasKey (create_issue_payload "P" "S" none none none) "description" = true
    ∧ dictGet (create_issue_payload "P" "S" none none none) "description" =
        some (Json.str "") :=
  ⟨rfl, rfl⟩

/-- Claim C3, amended: in the `update_issue` payload the keys `summary` and
`description` are present exactly when the corresponding argument was
supplied, and `customFields` is present exactly when a non-empty custom-fields
dict was supplied (an empty dict is falsy for `if custom_fields:` and is
treated like an omitted argument); in the `create_issue` payload the
`description` key is always present, bound to the supplied description or to
the empty-string default when omitted. -/
theorem c3_optional_fields (summary description : Option String)
    (custom_fields : Option (List (String × Json)))
    (project_id summary2 : String) (description2 : Option String)
    (custom_fields2 : Option (List (String × Json))) (story_points : Option Int) :
    hasKey (update_issue_payload summary description custom_fields) "summary" =
      summary.isSome
    ∧ hasKey (update_issue_payload summary description custom_fields) "description" =
        description.isSome
    ∧ hasKey (update_issue_payload summary description custom_fields) "customFields" =
        (match custom_fields with
         | some cf => !cf.isEmpty
         | none => false)
    ∧ hasKey (create_issue_payload project_id summary2 description2 custom_fields2
        story_points) "description" = true
    ∧ dictGet (create_issue_payload project_id summary2 description2 custom_fields2
        story_points) "description" = some (Json.str (description2.getD "")) := by
  obtain ⟨tail, htail⟩ := create_issue_payload_destruct project_id summary2 description2
    custom_fields2 story_points
  refine ⟨?_, ?_, ?_, ?_, ?_⟩
  · rcases summary with _ | s <;> rcases description with _ | d <;>
      rcases custom_fields with _ | (_ | ⟨kv, rest⟩) <;> rfl
  · rcases summary with _ | s <;> rcases description with _ | d <;>
      rcases custom_fields with _ | (_ | ⟨kv, rest⟩) <;> rfl
  · rcases summary with _ | s <;> rcases description with _ | d <;>
      rcases custom_fields with _ | (_ | ⟨kv, rest⟩) <;> rfl
  · rw [htail]; rfl
  · rw [htail]; rfl

/-- Claim C4: the code contradicts its own documentation.  `create_issue`
with `story_points = 5` and no other custom fields produces the single
`customFields` entry `\x7b"name": "5", "value": 5\x7d`: in
`\x7b"name": k, **v\x7d` the inner dict `\x7b"name": str(story_points),
"value": story_points\x7d` overwrites the `"Story points"` key, so the entry's
name is the stringified number, while the method's docstring and the inline
comment promise a field named `Story points`. -/
theorem c4_story_points_name_bug :
    create_issue_payload "P" "S" none none (some 5) =
      [("project", Json.obj [("id", Json.str "P")]),
       ("summary", Json.str "S"),
       ("description", Json.str ""),
       ("customFields",
         Json.arr [Json.obj [("name", Json.str "5"), ("value", Json.num 5)]])]
    ∧ ("5" : String) ≠ "Story points" :=
  ⟨rfl, by decide⟩

/-- Claim C5, counterexample.  With an empty caller query the filter string is
`project:P ` — the space is joined unconditionally, so the query string does
end with a stray trailing space, contrary to the claim. -/
theorem c5_counterexample :
    list_issues_query "P" "" = "project:P "
    ∧ (list_issues_query "P" "").data.getLast? = some (Char.ofNat 32) :=
  ⟨by decide, by decide⟩

/-- Claim C5, amended: for every project id and caller query, the server-side
filter query of `list_issues` is the clause `project:<id>` joined to the
caller's free-text query by one unconditional space; consequently, when the
caller's query is the empty string the resulting query string ends with a
trailing space. -/
theorem c5_query_concatenation (project_id query : String) :
    list_issues_query project_id query = "project:" ++ project_id ++ " " ++ query
    ∧ (query = "" →
        (list_issues_query project_id query).data.getLast? = some (Char.ofNat 32)) := by
  refine ⟨rfl, ?_⟩
  intro hq
  subst hq
  unfold list_issues_query
  rw [String.append_empty, String.data_append]
  rw [show (" " : String).data = [Char.ofNat 32] from rfl]
  exact List.getLast?_concat _

/-- Witness for `c5_query_concatenation` at project id `P` and the empty
caller query. -/
theorem c5_query_concatenation_witness :
    list_issues_query "P" "" = "project:" ++ "P" ++ " " ++ ""
    ∧ (list_issues_query "P" "").data.getLast? = some (Char.ofNat 32) :=
  ⟨(c5_query_concatenation "P" "").1, (c5_query_concatenation "P" "").2 rfl⟩

/-- Claim C6: from a well-formed configuration carrying both required keys,
construction succeeds and the client's two fields are exactly the file's
values; a missing or malformed file, a missing `youtrack` table, or a missing
`token` or `base_url` key each fail with a configuration error.  Every path
through `from_config` only reads the configuration, so all failures are raised
before any HTTP request exists. -/
theorem c6_from_config (cfg yt : Toml) (tok url : String)
    (hyt : tomlGet cfg "youtrack" = some yt)
    (htok : tomlGet yt "token" = some (Toml.str tok))
    (hurl : tomlGet yt "base_url" = some (Toml.str url)) :
    from_config (some cfg) = Except.ok (Toml.str tok, Toml.str url)
    ∧ (YouTrackClient.mk tok url).token = tok
    ∧ (YouTrackClient.mk tok url).base_url = url
    ∧ from_config none = Except.error ConfigError.loadFailed
    ∧ (∀ cfg2, tomlGet cfg2 "youtrack" = none →
        from_config (some cfg2) = Except.error ConfigError.missingValue)
    ∧ (∀ cfg2 yt2, tomlGet cfg2 "youtrack" = some yt2 →
        tomlGet yt2 "token" = none →
        from_config (some cfg2) = Except.error ConfigError.missingValue)
    ∧ (∀ cfg2 yt2 t, tomlGet cfg2 "youtrack" = some yt2 →
        tomlGet yt2 "token" = some t → tomlGet yt2 "base_url" = none →
        from_config (some cfg2) = Except.error ConfigError.missingValue) := by
  refine ⟨?_, rfl, rfl, rfl, ?_, ?_, ?_⟩
  · simp only [from_config, hyt, htok, hurl]
  · intro cfg2 h
    simp only [from_config, h]
  · intro cfg2 yt2 h1 h2
    simp only [from_config, h1, h2]
  · intro cfg2 yt2 t h1 h2 h3
    simp only [from_config, h1, h2, h3]

/-- Witness for `c6_from_config` at the concrete configuration used by the
repository's tests: token `abc`, base URL `https://yt`. -/
theorem c6_from_config_witness :
    from_config (some (Toml.table [("youtrack",
        Toml.table [("token", Toml.str "abc"), ("base_url", Toml.str "https://yt")])])) =
      Except.ok (Toml.str "abc", Toml.str "https://yt") :=
  (c6_from_config
    (Toml.table [("youtrack",
      Toml.table [("token", Toml.str "abc"), ("base_url", Toml.str "https://yt")])])
    (Toml.table [("token", Toml.str "abc"), ("base_url", Toml.str "https://yt")])
    "abc" "https://yt" (by rfl) (by rfl) (by rfl)).1

/-- Helper: on a well-formed workitem the source's per-item contribution
`wi.get(\x27duration\x27, 0)` is defined and equals the duration-or-zero value
the spec describes. -/
theorem workitemDuration_of_wf (wi : Json) (h : WellFormedWorkitem wi) :
    workitemDuration wi = some (duration_or_zero wi) := by
  obtain ⟨kvs, rfl, hv⟩ := h
  simp only [workitemDuration, duration_or_zero]
  cases hd : dictGet kvs "duration" with
  | none => rfl
  | some v =>
    obtain ⟨n, rfl⟩ := hv v hd
    rfl

/-- Helper: the running sum of `calculate_time_spent` over well-formed
workitems, for any starting accumulator. -/
theorem sumDurations_foldl (ws : List Json)
    (hw : ∀ wi ∈ ws, WellFormedWorkitem wi) (t : Int) :
    ws.foldl sumDurationsStep (some t) = some (t + (ws.map duration_or_zero).sum) := by
  induction ws generalizing t with
  | nil => simp
  | cons wi ws ih =>
    have hstep : sumDurationsStep (some t) wi = some (t + duration_or_zero wi) := by
      unfold sumDurationsStep
      rw [workitemDuration_of_wf wi (hw wi (by simp))]
    rw [List.foldl_cons, hstep, ih (fun x hx => hw x (by simp [hx]))]
    simp [add_assoc]

/-- Claim C7: for every well-formed workitem list (each workitem an object
whose `duration`, when present, is a number) the aggregation of
`calculate_time_spent` is defined and equals the sum of the durations, each
workitem counted exactly once and a missing `duration` contributing zero. -/
theorem c7_time_spent_sum (ws : List Json)
    (hw : ∀ wi ∈ ws, WellFormedWorkitem wi) :
    calculate_time_spent ws = some ((ws.map duration_or_zero).sum) := by
  unfold calculate_time_spent
  rw [sumDurations_foldl ws hw 0]
  simp

/-- Witness for `c7_time_spent_sum` at the spec's example
`[\x7b"duration":30\x7d, \x7b"duration":15\x7d, \x7b\x7d]`: the total is 45. -/
theorem c7_time_spent_sum_witness :
    calculate_time_spent
      [Json.obj [("duration", Json.num 30)],
       Json.obj [("duration", Json.num 15)],
       Json.obj []] = some 45 := by
  have h := c7_time_spent_sum
    [Json.obj [("duration", Json.num 30)],
     Json.obj [("duration", Json.num 15)],
     Json.obj []]
    (by
      intro wi hwi
      simp only [List.mem_cons, List.not_mem_nil, or_false] at hwi
      rcases hwi with rfl | rfl | rfl
      · exact ⟨_, rfl, fun v hv => ⟨30, by simpa [dictGet] using hv.symm⟩⟩
      · exact ⟨_, rfl, fun v hv => ⟨15, by simpa [dictGet] using hv.symm⟩⟩
      · exact ⟨_, rfl, fun v hv => by simp [dictGet] at hv⟩)
  rw [h]
  rfl

/-- Helper: the board predicate of `list_boards` holds exactly when the
board's `projects` list contains an entry whose `id` is the requested
project identifier. -/
theorem boardMatchesProject_eq_true_iff (pid : String) (b : Json) :
    boardMatchesProject pid b = true ↔
      ∃ kvs ps pkvs, b = Json.obj kvs
        ∧ dictGet kvs "projects" = some (Json.arr ps)
        ∧ Json.obj pkvs ∈ ps
        ∧ dictGet pkvs "id" = some (Json.str pid) := by
  constructor
  · intro h
    cases b with
    | obj kvs =>
      simp only [boardMatchesProject] at h
      rcases hproj : dictGet kvs "projects" with _ | v
      · rw [hproj] at h
        exact Bool.noConfusion h
      · rw [hproj] at h
        cases v with
        | arr ps =>
          rw [List.any_eq_true] at h
          obtain ⟨p, hp, hmatch⟩ := h
          cases p with
          | obj pkvs =>
            dsimp only at hmatch
            rcases hid : dictGet pkvs "id" with _ | w
            · rw [hid] at hmatch
              exact Bool.noConfusion hmatch
            · rw [hid] at hmatch
              cases w with
              | str s =>
                have hs : s = pid := by simpa using hmatch
                subst hs
                exact ⟨kvs, ps, pkvs, rfl, hproj, hp, hid⟩
              | null => exact Bool.noConfusion hmatch
              | bool x => exact Bool.noConfusion hmatch
              | num n => exact Bool.noConfusion hmatch
              | arr xs => exact Bool.noConfusion hmatch
              | obj o => exact Bool.noConfusion hmatch
          | null => exact Bool.noConfusion hmatch
          | bool x => exact Bool.noConfusion hmatch
          | num n => exact Bool.noConfusion hmatch
          | str s => exact Bool.noConfusion hmatch
          | arr xs => exact Bool.noConfusion hmatch
        | null => exact Bool.noConfusion h
        | bool x => exact Bool.noConfusion h
        | num n => exact Bool.noConfusion h
        | str s => exact Bool.noConfusion h
        | obj o => exact Bool.noConfusion h
    | null => exact Bool.noConfusion h
    | bool x => exact Bool.noConfusion h
    | num n => exact Bool.noConfusion h
    | str s => exact Bool.noConfusion h
    | arr xs => exact Bool.noConfusion h
  · rintro ⟨kvs, ps, pkvs, rfl, hproj, hmem, hid⟩
    simp only [boardMatchesProject]
    rw [hproj, List.any_eq_true]
    refine ⟨Json.obj pkvs, hmem, ?_⟩
    dsimp only
    rw [hid]
    simp

/-- Claim C8: for every server board list (well-formed boards, the shape the
requested fields produce) and non-empty project identifier, `list_boards`
returns exactly the fetched boards whose `projects` list contains an entry
with that identifier, in their original order (a filter, hence a sublist);
with no identifier the server result is returned unchanged; and the issued
request does not depend on the identifier, so the full board list is always
fetched before any filtering. -/
theorem c8_board_filtering (boards : List Json) (pid : String) (hpid : pid ≠ "")
    (_hw : ∀ b ∈ boards, WellFormedBoard b) :
    list_boards boards (some pid) = boards.filter (boardMatchesProject pid)
    ∧ (∀ b, b ∈ list_boards boards (some pid) ↔
        b ∈ boards ∧ boardMatchesProject pid b = true)
    ∧ List.Sublist (list_boards boards (some pid)) boards
    ∧ list_boards boards none = boards
    ∧ (∀ c pidArg, list_boards_request c pidArg = list_boards_request c none)
    ∧ (∀ b ∈ boards, boardMatchesProject pid b = true ↔
        ∃ kvs ps pkvs, b = Json.obj kvs
          ∧ dictGet kvs "projects" = some (Json.arr ps)
          ∧ Json.obj pkvs ∈ ps
          ∧ dictGet pkvs "id" = some (Json.str pid)) := by
  have h1 : list_boards boards (some pid) = boards.filter (boardMatchesProject pid) := by
    simp [list_boards, hpid]
  refine ⟨h1, ?_, ?_, rfl, fun c pidArg => rfl,
    fun b hb => boardMatchesProject_eq_true_iff pid b⟩
  · intro b
    rw [h1]
    exact List.mem_filter
  · rw [h1]
    exact List.filter_sublist boards

/-- Witness for `c8_board_filtering` at the spec's example: of the two boards
for projects `P1` and `P2`, requesting `P1` keeps only the first, and no
filter returns both. -/
theorem c8_board_filtering_witness :
    list_boards
      [Json.obj [("id", Json.str "1"), ("projects", Json.arr [Json.obj [("id", Json.str "P1")]])],
       Json.obj [("id", Json.str "2"), ("projects", Json.arr [Json.obj [("id", Json.str "P2")]])]]
      (some "P1") =
      [Json.obj [("id", Json.str "1"), ("projects", Json.arr [Json.obj [("id", Json.str "P1")]])]]
    ∧ list_boards
      [Json.obj [("id", Json.str "1"), ("projects", Json.arr [Json.obj [("id", Json.str "P1")]])],
       Json.obj [("id", Json.str "2"), ("projects", Json.arr [Json.obj [("id", Json.str "P2")]])]]
      none =
      [Json.obj [("id", Json.str "1"), ("projects", Json.arr [Json.obj [("id", Json.str "P1")]])],
       Json.obj [("id", Json.str "2"), ("projects", Json.arr [Json.obj [("id", Json.str "P2")]])]] := by
  have h := c8_board_filtering
    [Json.obj [("id", Json.str "1"), ("projects", Json.arr [Json.obj [("id", Json.str "P1")]])],
     Json.obj [("id", Json.str "2"), ("projects", Json.arr [Json.obj [("id", Json.str "P2")]])]]
    "P1" (by decide)
    (by
      intro b hb
      simp only [List.mem_cons, List.not_mem_nil, or_false] at hb
      rcases hb with rfl | rfl
      · refine ⟨_, rfl, fun v hv => ?_⟩
        obtain rfl : Json.arr [Json.obj [("id", Json.str "P1")]] = v := Option.some_inj.mp hv
        refine ⟨_, rfl, fun p hp => ?_⟩
        obtain rfl : p = Json.obj [("id", Json.str "P1")] := by simpa using hp
        exact ⟨_, rfl, "P1", rfl⟩
      · refine ⟨_, rfl, fun v hv => ?_⟩
        obtain rfl : Json.arr [Json.obj [("id", Json.str "P2")]] = v := Option.some_inj.mp hv
        refine ⟨_, rfl, fun p hp => ?_⟩
        obtain rfl : p = Json.obj [("id", Json.str "P2")] := by simpa using hp
        exact ⟨_, rfl, "P2", rfl⟩)
  exact ⟨by rw [h.1]; rfl, h.2.2.2.1⟩

/-- Claim C9: no public method mutates the client's credential or endpoint
root.  Every method body only reads `self.token` (through `_headers`) and
`self.base_url` (as the URL root) and contains no assignment to either field,
so after any operation both fields equal their construction-time values. -/
theorem c9_credentials_immutable (c : YouTrackClient) (op : Op) :
    ((runOp c op).2).token = c.token ∧ ((runOp c op).2).base_url = c.base_url := by
  cases op <;> exact ⟨rfl, rfl⟩

/-- Claim C10: `create_issue` copies the caller's custom-fields dict before
merging the `Story points` entry, so the write lands in the fresh copy and the
caller's dict object is unchanged by the call, whatever `story_points` is. -/
theorem c10_caller_dict_preserved (h : Heap) (a : Nat)
    (ha : a < h.cells.length) (sp : Option Int) :
    ((create_issue_custom_fields_state h (some a) sp).1).read a = h.read a := by
  have hne : h.cells.length ≠ a := by omega
  unfold create_issue_custom_fields_state
  cases sp with
  | none =>
    dsimp only [Heap.alloc, Heap.read]
    split <;> rw [List.getElem?_append_left ha]
  | some sp =>
    dsimp only [Heap.alloc, Heap.read, Heap.write]
    split <;> rw [List.getElem?_set_ne hne, List.getElem?_append_left ha]

/-- Witness for `c10_caller_dict_preserved`: a heap holding one caller dict
`\x7b"Priority": "High"\x7d` at address 0; after the custom-fields processing
with `story_points = 5` the caller's dict still reads unchanged. -/
theorem c10_caller_dict_preserved_witness :
    0 < (Heap.mk [[("Priority", Json.str "High")]]).cells.length
    ∧ ((create_issue_custom_fields_state
        (Heap.mk [[("Priority", Json.str "High")]]) (some 0) (some 5)).1).read 0 =
      (Heap.mk [[("Priority", Json.str "High")]]).read 0 :=
  ⟨by decide, c10_caller_dict_preserved (Heap.mk [[("Priority", Json.str "High")]]) 0
    (by decide) (some 5)⟩

end YouTrack
